import Mathlib

/-!
Verification development for the reth benchmarking valid-wait extension
(`bin/reth-bench/src/valid_payload.rs`) and the Base mainnet chain spec
(`crates/optimism/chainspec/src/base.rs`).

The six wait operations are embedded as pure functions over the sequence of
responses produced by the underlying Engine API client: each client call is
modelled by consuming one element of a finite list of responses, where every
element is either a transport failure or a decoded protocol response.  Each
operation returns the list of requests it issued (one per call, in order)
together with its outcome.  Exhaustion of the finite response list while the
loop is still polling is modelled by the `pending` outcome: the operation has
issued one more request and is suspended awaiting its response.
-/

/-- 32-byte hashes, modelled as natural numbers. -/
abbrev B256 := Nat

/-- 20-byte addresses, modelled as natural numbers. -/
abbrev Address := Nat

/-- Status of a payload validation, per the engine API:
`Valid` and `Invalid` are terminal, `Syncing` and `Accepted` are not. -/
inductive PayloadStatusEnum where
  | Valid
  | Invalid
  | Syncing
  | Accepted
deriving DecidableEq, Repr

/-- The `is_invalid` predicate on payload statuses. -/
def PayloadStatusEnum.is_invalid : PayloadStatusEnum → Bool
  | .Invalid => true
  | _ => false

/-- Response of a payload submission: the status together with the optional
latest valid hash and optional validation-error diagnostic. -/
structure PayloadStatus where
  status : PayloadStatusEnum
  latest_valid_hash : Option B256
  validation_error : Option String
deriving DecidableEq, Repr

/-- The forkchoice state: head, safe and finalized block hashes. -/
structure ForkchoiceState where
  head_block_hash : B256
  safe_block_hash : B256
  finalized_block_hash : B256
deriving DecidableEq, Repr

/-- A withdrawal operation as carried in payloads and attributes. -/
structure Withdrawal where
  index : Nat
  validator_index : Nat
  address : Address
  amount : Nat
deriving DecidableEq, Repr

/-- Attributes for building the next block, passed through unchanged. -/
structure PayloadAttributes where
  timestamp : Nat
  prev_randao : B256
  suggested_fee_recipient : Address
  withdrawals : Option (List Withdrawal)
  parent_beacon_block_root : Option B256
deriving DecidableEq, Repr

/-- Result of a forkchoice update: a payload status plus an optional
identifier of the build job started for the attributes. -/
structure ForkchoiceUpdated where
  payload_status : PayloadStatus
  payload_id : Option Nat
deriving DecidableEq, Repr

/-- Version-1 execution payload: the block-candidate value submitted to the
execution layer.  The coordinator treats it as opaque. -/
structure ExecutionPayloadV1 where
  parent_hash : B256
  fee_recipient : Address
  state_root : B256
  receipts_root : B256
  logs_bloom : List Nat
  prev_randao : B256
  block_number : Nat
  gas_limit : Nat
  gas_used : Nat
  timestamp : Nat
  extra_data : List Nat
  base_fee_per_gas : Nat
  block_hash : B256
  transactions : List (List Nat)
deriving DecidableEq, Repr

/-- Version-2 payload input: a V1 payload plus optional withdrawals. -/
structure ExecutionPayloadInputV2 where
  execution_payload : ExecutionPayloadV1
  withdrawals : Option (List Withdrawal)
deriving DecidableEq, Repr

/-- Version-2 execution payload: a V1 payload plus withdrawals. -/
structure ExecutionPayloadV2 where
  payload_inner : ExecutionPayloadV1
  withdrawals : List Withdrawal
deriving DecidableEq, Repr

/-- Version-3 execution payload: a V2 payload plus blob gas fields. -/
structure ExecutionPayloadV3 where
  payload_inner : ExecutionPayloadV2
  blob_gas_used : Nat
  excess_blob_gas : Nat
deriving DecidableEq, Repr

/-- A transport-layer failure as surfaced by the client call. -/
structure TransportError where
  message : String
deriving DecidableEq, Repr

/-- Diagnostic recorded by `new_payload_v3_wait` before the fatal abort:
the triggering response and the exact submitted request. -/
structure NewPayloadV3Diag where
  status : PayloadStatus
  payload : ExecutionPayloadV3
  versioned_hashes : List B256
  parent_beacon_block_root : B256
deriving DecidableEq, Repr

/-- Diagnostic recorded by `fork_choice_updated_v3_wait` before the fatal
abort: the triggering response and the exact submitted request. -/
structure ForkchoiceV3Diag where
  status : ForkchoiceUpdated
  fork_choice_state : ForkchoiceState
  payload_attributes : Option PayloadAttributes
deriving DecidableEq, Repr

/-- Diagnostic context carried by a fatal abort (a panic in the source). -/
inductive FatalDiag where
  | newPayload (d : NewPayloadV3Diag)
  | forkchoice (d : ForkchoiceV3Diag)
deriving DecidableEq, Repr

/-- Outcome of a wait operation over a finite response sequence:
it returned a result, it propagated a transport error, it aborted fatally
(a panic in the source), or the response list ran out while the loop was
still polling (the operation is suspended awaiting the response to the last
issued request and has not returned to the caller). -/
inductive WaitOutcome (α : Type) where
  | ok (result : α)
  | transportErr (e : TransportError)
  | fatal (diag : FatalDiag)
  | pending
deriving DecidableEq, Repr

/-- Whether an outcome is the fatal abort. -/
def WaitOutcome.is_fatal : WaitOutcome α → Bool
  | .fatal _ => true
  | _ => false

/-- One response of the Engine API client: either a transport failure or a
decoded response value. -/
abbrev ClientResp (α : Type) := Except TransportError α

/-- `new_payload_v1_wait`: calls `engine_newPayloadV1` with the given payload
and waits until the response is VALID, returning the issued requests and the
outcome.  Transcribed from the source: the call is issued, a transport
failure is propagated by `?`, and any status other than `Valid` causes the
identical payload to be resubmitted. -/
def new_payload_v1_wait (payload : ExecutionPayloadV1) :
    List (ClientResp PayloadStatus) →
      List ExecutionPayloadV1 × WaitOutcome PayloadStatus
  | [] => ([payload], .pending)
  | .error e :: _ => ([payload], .transportErr e)
  | .ok status :: rest =>
    if status.status = PayloadStatusEnum.Valid then
      ([payload], .ok status)
    else
      let r := new_payload_v1_wait payload rest
      (payload :: r.1, r.2)

/-- `new_payload_v2_wait`: calls `engine_newPayloadV2` with the given payload
input and waits until the response is VALID.  Same loop as V1. -/
def new_payload_v2_wait (payload : ExecutionPayloadInputV2) :
    List (ClientResp PayloadStatus) →
      List ExecutionPayloadInputV2 × WaitOutcome PayloadStatus
  | [] => ([payload], .pending)
  | .error e :: _ => ([payload], .transportErr e)
  | .ok status :: rest =>
    if status.status = PayloadStatusEnum.Valid then
      ([payload], .ok status)
    else
      let r := new_payload_v2_wait payload rest
      (payload :: r.1, r.2)

/-- `new_payload_v3_wait`: calls `engine_newPayloadV3` with the given payload,
versioned hashes and parent beacon block root, and waits until the response
is VALID.  Inside the loop, an `Invalid` status logs the response and the
full request and panics ("Invalid payload"); any other non-`Valid` status
causes resubmission of the identical request. -/
def new_payload_v3_wait (payload : ExecutionPayloadV3)
    (versioned_hashes : List B256) (parent_beacon_block_root : B256) :
    List (ClientResp PayloadStatus) →
      List (ExecutionPayloadV3 × List B256 × B256) × WaitOutcome PayloadStatus
  | [] => ([(payload, versioned_hashes, parent_beacon_block_root)], .pending)
  | .error e :: _ =>
    ([(payload, versioned_hashes, parent_beacon_block_root)], .transportErr e)
  | .ok status :: rest =>
    if status.status = PayloadStatusEnum.Valid then
      ([(payload, versioned_hashes, parent_beacon_block_root)], .ok status)
    else if status.status.is_invalid then
      ([(payload, versioned_hashes, parent_beacon_block_root)],
        .fatal (.newPayload
          ⟨status, payload, versioned_hashes, parent_beacon_block_root⟩))
    else
      let r := new_payload_v3_wait payload versioned_hashes
        parent_beacon_block_root rest
      ((payload, versioned_hashes, parent_beacon_block_root) :: r.1, r.2)

/-- `fork_choice_updated_v1_wait`: calls `engine_forkChoiceUpdatedV1` with the
given forkchoice state and optional attributes and waits until the inner
payload status is VALID. -/
def fork_choice_updated_v1_wait (fork_choice_state : ForkchoiceState)
    (payload_attributes : Option PayloadAttributes) :
    List (ClientResp ForkchoiceUpdated) →
      List (ForkchoiceState × Option PayloadAttributes) ×
        WaitOutcome ForkchoiceUpdated
  | [] => ([(fork_choice_state, payload_attributes)], .pending)
  | .error e :: _ => ([(fork_choice_state, payload_attributes)], .transportErr e)
  | .ok status :: rest =>
    if status.payload_status.status = PayloadStatusEnum.Valid then
      ([(fork_choice_state, payload_attributes)], .ok status)
    else
      let r := fork_choice_updated_v1_wait fork_choice_state
        payload_attributes rest
      ((fork_choice_state, payload_attributes) :: r.1, r.2)

/-- `fork_choice_updated_v2_wait`: calls `engine_forkChoiceUpdatedV2` with the
given forkchoice state and optional attributes and waits until the inner
payload status is VALID.  Same loop as V1. -/
def fork_choice_updated_v2_wait (fork_choice_state : ForkchoiceState)
    (payload_attributes : Option PayloadAttributes) :
    List (ClientResp ForkchoiceUpdated) →
      List (ForkchoiceState × Option PayloadAttributes) ×
        WaitOutcome ForkchoiceUpdated
  | [] => ([(fork_choice_state, payload_attributes)], .pending)
  | .error e :: _ => ([(fork_choice_state, payload_attributes)], .transportErr e)
  | .ok status :: rest =>
    if status.payload_status.status = PayloadStatusEnum.Valid then
      ([(fork_choice_state, payload_attributes)], .ok status)
    else
      let r := fork_choice_updated_v2_wait fork_choice_state
        payload_attributes rest
      ((fork_choice_state, payload_attributes) :: r.1, r.2)

/-- `fork_choice_updated_v3_wait`: calls `engine_forkChoiceUpdatedV3` with the
given forkchoice state and optional attributes and waits until the inner
payload status is VALID.  Inside the loop, an `Invalid` inner status logs the
response and the full request and panics ("Invalid FCU"); any other
non-`Valid` status causes resubmission of the identical request. -/
def fork_choice_updated_v3_wait (fork_choice_state : ForkchoiceState)
    (payload_attributes : Option PayloadAttributes) :
    List (ClientResp ForkchoiceUpdated) →
      List (ForkchoiceState × Option PayloadAttributes) ×
        WaitOutcome ForkchoiceUpdated
  | [] => ([(fork_choice_state, payload_attributes)], .pending)
  | .error e :: _ => ([(fork_choice_state, payload_attributes)], .transportErr e)
  | .ok status :: rest =>
    if status.payload_status.status = PayloadStatusEnum.Valid then
      ([(fork_choice_state, payload_attributes)], .ok status)
    else if status.payload_status.status.is_invalid then
      ([(fork_choice_state, payload_attributes)],
        .fatal (.forkchoice ⟨status, fork_choice_state, payload_attributes⟩))
    else
      let r := fork_choice_updated_v3_wait fork_choice_state
        payload_attributes rest
      ((fork_choice_state, payload_attributes) :: r.1, r.2)

/-!
Chain-spec model for `crates/optimism/chainspec/src/base.rs`.  The supporting
types (`Chain`, `BaseFeeParams`, the hardfork enums) live in external crates
of the repository that are not under `src/`, so they are modelled from the
spec; `BASE_MAINNET` itself is transcribed from the source.
-/

/-- Modelled from the spec: a chain identifier (the external `alloy_chains::Chain`
type is missing from the sources); represented by its numeric chain id. -/
abbrev Chain := Nat

/-- Modelled from the spec: `Chain::base_mainnet()`, the Base mainnet chain
identifier (chain id 8453), from the external chains crate. -/
def Chain.base_mainnet : Chain := 8453

/-- Modelled from the spec: the EIP-1559 fee-market parameters (the external
`BaseFeeParams` type is missing from the sources). -/
structure BaseFeeParams where
  max_change_denominator : Nat
  elasticity_multiplier : Nat
deriving DecidableEq, Repr

/-- Modelled from the spec: `BaseFeeParams::optimism()`, the Optimism
fee-market parameters defined in the external chain-spec crate. -/
def BaseFeeParams.optimism : BaseFeeParams :=
  { max_change_denominator := 50, elasticity_multiplier := 6 }

/-- Modelled from the spec: `BaseFeeParams::optimism_canyon()`, the Optimism
post-Canyon fee-market parameters defined in the external chain-spec crate. -/
def BaseFeeParams.optimism_canyon : BaseFeeParams :=
  { max_change_denominator := 250, elasticity_multiplier := 6 }

/-- Modelled from the spec: the Ethereum hardfork names (the external
`EthereumHardfork` enum is missing from the sources). -/
inductive EthereumHardfork where
  | Frontier | Homestead | Dao | Tangerine | SpuriousDragon | Byzantium
  | Constantinople | Petersburg | Istanbul | MuirGlacier | Berlin | London
  | ArrowGlacier | GrayGlacier | Paris | Shanghai | Cancun | Prague
deriving DecidableEq, Repr

/-- Modelled from the spec: the Optimism hardfork names (the external
`OpHardfork` enum is missing from the sources). -/
inductive OpHardfork where
  | Bedrock | Regolith | Canyon | Ecotone | Fjord | Granite | Holocene
deriving DecidableEq, Repr

/-- Modelled from the spec: a boxed dynamic hardfork value, either an
Ethereum or an Optimism hardfork. -/
inductive Hardfork where
  | ethereum (f : EthereumHardfork)
  | op (f : OpHardfork)
deriving DecidableEq, Repr

/-- Modelled from the spec: the `BaseFeeParamsKind` of the external
chain-spec crate — either one constant parameter set, or a schedule mapping
hardfork activations to parameter sets. -/
inductive BaseFeeParamsKind where
  | Constant (params : BaseFeeParams)
  | Variable (forkParams : List (Hardfork × BaseFeeParams))
deriving DecidableEq, Repr

/-- The fields of the external `ChainSpec` structure that `BASE_MAINNET`
sets explicitly, other than `genesis` (deserialized from a JSON resource
file) and `hardforks` (the externally defined `OpHardfork::base_mainnet()`
schedule), whose contents are not under the sources and are not referenced
by any claim. -/
structure ChainSpec where
  chain : Chain
  genesis_hash : B256
  paris_block_and_final_difficulty : Option (Nat × Nat)
  base_fee_params : BaseFeeParamsKind
deriving DecidableEq, Repr

/-- The Optimism chain spec: a wrapper around the inner `ChainSpec`. -/
structure OpChainSpec where
  inner : ChainSpec
deriving DecidableEq, Repr

/-- The Base mainnet spec, transcribed from `base.rs`. -/
def BASE_MAINNET : OpChainSpec :=
  { inner :=
    { chain := Chain.base_mainnet
      genesis_hash :=
        0xf712aa9241cc24369b143cf6dce85f0902a9731e70d66818a3a5845b296c73dd
      paris_block_and_final_difficulty := some (0, 0)
      base_fee_params := BaseFeeParamsKind.Variable
        [(Hardfork.ethereum EthereumHardfork.London, BaseFeeParams.optimism),
         (Hardfork.op OpHardfork.Canyon, BaseFeeParams.optimism_canyon)] } }

/-!
Relational semantics shared by the six wait operations, used to state
determinism: a derivation describes one possible run of an operation on a
given response sequence, and every derivation is shown to produce exactly
the result of the corresponding function.
-/

/-- One run of a wait operation, as a relation.  The operation is given by
the status extraction `getStatus`, the fatal-on-invalid diagnostic
`onInvalid` (`none` for the V1/V2 operations, which have no fatal branch),
and the fixed request `req` it submits on every attempt.  A derivation
`EngineWaitRel getStatus onInvalid req rs out` states that a run fed the
client responses `rs` issues the request list `out.1` and ends as
`out.2`. -/
inductive EngineWaitRel {Req Resp : Type} (getStatus : Resp → PayloadStatusEnum)
    (onInvalid : Resp → Option FatalDiag) (req : Req) :
    List (ClientResp Resp) → List Req × WaitOutcome Resp → Prop where
  | pending : EngineWaitRel getStatus onInvalid req [] ([req], .pending)
  | transport (e : TransportError) (rest : List (ClientResp Resp)) :
      EngineWaitRel getStatus onInvalid req (.error e :: rest)
        ([req], .transportErr e)
  | valid (s : Resp) (rest : List (ClientResp Resp))
      (h : getStatus s = .Valid) :
      EngineWaitRel getStatus onInvalid req (.ok s :: rest) ([req], .ok s)
  | fatal (s : Resp) (rest : List (ClientResp Resp)) (d : FatalDiag)
      (h : getStatus s ≠ .Valid) (hd : onInvalid s = some d) :
      EngineWaitRel getStatus onInvalid req (.ok s :: rest) ([req], .fatal d)
  | retry (s : Resp) (rest : List (ClientResp Resp)) (reqs : List Req)
      (out : WaitOutcome Resp) (h : getStatus s ≠ .Valid)
      (hd : onInvalid s = none)
      (tail : EngineWaitRel getStatus onInvalid req rest (reqs, out)) :
      EngineWaitRel getStatus onInvalid req (.ok s :: rest) (req :: reqs, out)

/-- The V1/V2 operations have no fatal branch. -/
def noFatal {Resp : Type} : Resp → Option FatalDiag := fun _ => none

/-- The fatal diagnostic of `new_payload_v3_wait`: produced exactly when the
status is `Invalid`, carrying the response and the submitted request. -/
def npV3OnInvalid (payload : ExecutionPayloadV3) (versioned_hashes : List B256)
    (parent_beacon_block_root : B256) (s : PayloadStatus) : Option FatalDiag :=
  if s.status.is_invalid then
    some (.newPayload ⟨s, payload, versioned_hashes, parent_beacon_block_root⟩)
  else none

/-- The fatal diagnostic of `fork_choice_updated_v3_wait`: produced exactly
when the inner status is `Invalid`, carrying the response and the submitted
request. -/
def fcuV3OnInvalid (fork_choice_state : ForkchoiceState)
    (payload_attributes : Option PayloadAttributes) (s : ForkchoiceUpdated) :
    Option FatalDiag :=
  if s.payload_status.status.is_invalid then
    some (.forkchoice ⟨s, fork_choice_state, payload_attributes⟩)
  else none

/-- Status extraction for forkchoice-update responses. -/
def fcuStatus (s : ForkchoiceUpdated) : PayloadStatusEnum :=
  s.payload_status.status

/-!
Predicates describing which client responses keep a wait operation polling:
for V1/V2 every decoded response other than `Valid` (including `Invalid`),
for V3 every decoded response other than `Valid` and `Invalid`.
-/

/-- A response on which a V1/V2 payload-submission loop keeps polling. -/
def retriableV12 : ClientResp PayloadStatus → Bool
  | .ok s => decide (s.status ≠ PayloadStatusEnum.Valid)
  | .error _ => false

/-- A response on which the V3 payload-submission loop keeps polling. -/
def retriableV3 : ClientResp PayloadStatus → Bool
  | .ok s => decide (s.status ≠ PayloadStatusEnum.Valid) && !s.status.is_invalid
  | .error _ => false

/-- A response on which a V1/V2 forkchoice-update loop keeps polling. -/
def fcuRetriableV12 : ClientResp ForkchoiceUpdated → Bool
  | .ok s => decide (s.payload_status.status ≠ PayloadStatusEnum.Valid)
  | .error _ => false

/-- A response on which the V3 forkchoice-update loop keeps polling. -/
def fcuRetriableV3 : ClientResp ForkchoiceUpdated → Bool
  | .ok s => decide (s.payload_status.status ≠ PayloadStatusEnum.Valid) &&
      !s.payload_status.status.is_invalid
  | .error _ => false

/-!
Sample concrete values, used by the witnesses.
-/

/-- A sample V1 execution payload. -/
def samplePayloadV1 : ExecutionPayloadV1 :=
  ⟨0, 0, 0, 0, [], 0, 0, 0, 0, 0, [], 0, 0, []⟩

/-- A sample V2 execution payload input. -/
def samplePayloadInputV2 : ExecutionPayloadInputV2 := ⟨samplePayloadV1, none⟩

/-- A sample V3 execution payload. -/
def samplePayloadV3 : ExecutionPayloadV3 := ⟨⟨samplePayloadV1, []⟩, 0, 0⟩

/-- A sample forkchoice state. -/
def sampleFcuState : ForkchoiceState := ⟨1, 2, 3⟩

/-- A `Valid` payload status. -/
def validStatus : PayloadStatus := ⟨.Valid, some 7, none⟩

/-- A `Syncing` payload status. -/
def syncingStatus : PayloadStatus := ⟨.Syncing, none, none⟩

/-- An `Accepted` payload status. -/
def acceptedStatus : PayloadStatus := ⟨.Accepted, none, none⟩

/-- An `Invalid` payload status. -/
def invalidStatus : PayloadStatus := ⟨.Invalid, none, some "bad block"⟩

/-- A forkchoice-update response with `Valid` inner status. -/
def validFcu : ForkchoiceUpdated := ⟨validStatus, some 11⟩

/-- A forkchoice-update response with `Syncing` inner status. -/
def syncingFcu : ForkchoiceUpdated := ⟨syncingStatus, none⟩

/-- A forkchoice-update response with `Invalid` inner status. -/
def invalidFcu : ForkchoiceUpdated := ⟨invalidStatus, none⟩

/-- A sample transport error. -/
def sampleErr : TransportError := ⟨"connection reset"⟩

/-!
Helper lemmas.
-/

/-- `is_invalid` holds exactly for the `Invalid` status. -/
theorem PayloadStatusEnum.is_invalid_eq (s : PayloadStatusEnum) :
    s.is_invalid = true ↔ s = .Invalid := by
  cases s <;> simp [PayloadStatusEnum.is_invalid]

/-- Skipping a retriable prefix: `new_payload_v1_wait` over `pre ++ rs`
re-issues the payload once per prefix response and then behaves as over
`rs`. -/
theorem new_payload_v1_wait_append (payload : ExecutionPayloadV1)
    (pre rs : List (ClientResp PayloadStatus))
    (h : pre.all retriableV12 = true) :
    new_payload_v1_wait payload (pre ++ rs) =
      (List.replicate pre.length payload ++
          (new_payload_v1_wait payload rs).1,
        (new_payload_v1_wait payload rs).2) := by
  induction pre with
  | nil => simp
  | cons r pre ih =>
    rw [List.all_cons, Bool.and_eq_true] at h
    obtain ⟨hr, hpre⟩ := h
    cases r with
    | error e => simp [retriableV12] at hr
    | ok s =>
      have hs : ¬s.status = PayloadStatusEnum.Valid := by
        simpa [retriableV12] using hr
      simp [new_payload_v1_wait, hs, ih hpre, List.replicate_succ]

/-- Skipping a retriable prefix for `new_payload_v2_wait`. -/
theorem new_payload_v2_wait_append (payload : ExecutionPayloadInputV2)
    (pre rs : List (ClientResp PayloadStatus))
    (h : pre.all retriableV12 = true) :
    new_payload_v2_wait payload (pre ++ rs) =
      (List.replicate pre.length payload ++
          (new_payload_v2_wait payload rs).1,
        (new_payload_v2_wait payload rs).2) := by
  induction pre with
  | nil => simp
  | cons r pre ih =>
    rw [List.all_cons, Bool.and_eq_true] at h
    obtain ⟨hr, hpre⟩ := h
    cases r with
    | error e => simp [retriableV12] at hr
    | ok s =>
      have hs : ¬s.status = PayloadStatusEnum.Valid := by
        simpa [retriableV12] using hr
      simp [new_payload_v2_wait, hs, ih hpre, List.replicate_succ]

/-- Skipping a retriable prefix for `new_payload_v3_wait`: a V3-retriable
response is neither `Valid` nor `Invalid`. -/
theorem new_payload_v3_wait_append (payload : ExecutionPayloadV3)
    (versioned_hashes : List B256) (parent_beacon_block_root : B256)
    (pre rs : List (ClientResp PayloadStatus))
    (h : pre.all retriableV3 = true) :
    new_payload_v3_wait payload versioned_hashes parent_beacon_block_root
        (pre ++ rs) =
      (List.replicate pre.length
            (payload, versioned_hashes, parent_beacon_block_root) ++
          (new_payload_v3_wait payload versioned_hashes
            parent_beacon_block_root rs).1,
        (new_payload_v3_wait payload versioned_hashes
          parent_beacon_block_root rs).2) := by
  induction pre with
  | nil => simp
  | cons r pre ih =>
    rw [List.all_cons, Bool.and_eq_true] at h
    obtain ⟨hr, hpre⟩ := h
    cases r with
    | error e => simp [retriableV3] at hr
    | ok s =>
      rw [retriableV3, Bool.and_eq_true] at hr
      obtain ⟨hv, hi⟩ := hr
      have hs : ¬s.status = PayloadStatusEnum.Valid := by simpa using hv
      have hinv : s.status.is_invalid = false := by simpa using hi
      simp [new_payload_v3_wait, hs, hinv, ih hpre, List.replicate_succ]

/-- Skipping a retriable prefix for `fork_choice_updated_v1_wait`. -/
theorem fork_choice_updated_v1_wait_append (st : ForkchoiceState)
    (attrs : Option PayloadAttributes)
    (pre rs : List (ClientResp ForkchoiceUpdated))
    (h : pre.all fcuRetriableV12 = true) :
    fork_choice_updated_v1_wait st attrs (pre ++ rs) =
      (List.replicate pre.length (st, attrs) ++
          (fork_choice_updated_v1_wait st attrs rs).1,
        (fork_choice_updated_v1_wait st attrs rs).2) := by
  induction pre with
  | nil => simp
  | cons r pre ih =>
    rw [List.all_cons, Bool.and_eq_true] at h
    obtain ⟨hr, hpre⟩ := h
    cases r with
    | error e => simp [fcuRetriableV12] at hr
    | ok s =>
      have hs : ¬s.payload_status.status = PayloadStatusEnum.Valid := by
        simpa [fcuRetriableV12] using hr
      simp [fork_choice_updated_v1_wait, hs, ih hpre, List.replicate_succ]

/-- Skipping a retriable prefix for `fork_choice_updated_v2_wait`. -/
theorem fork_choice_updated_v2_wait_append (st : ForkchoiceState)
    (attrs : Option PayloadAttributes)
    (pre rs : List (ClientResp ForkchoiceUpdated))
    (h : pre.all fcuRetriableV12 = true) :
    fork_choice_updated_v2_wait st attrs (pre ++ rs) =
      (List.replicate pre.length (st, attrs) ++
          (fork_choice_updated_v2_wait st attrs rs).1,
        (fork_choice_updated_v2_wait st attrs rs).2) := by
  induction pre with
  | nil => simp
  | cons r pre ih =>
    rw [List.all_cons, Bool.and_eq_true] at h
    obtain ⟨hr, hpre⟩ := h
    cases r with
    | error e => simp [fcuRetriableV12] at hr
    | ok s =>
      have hs : ¬s.payload_status.status = PayloadStatusEnum.Valid := by
        simpa [fcuRetriableV12] using hr
      simp [fork_choice_updated_v2_wait, hs, ih hpre, List.replicate_succ]

/-- Skipping a retriable prefix for `fork_choice_updated_v3_wait`. -/
theorem fork_choice_updated_v3_wait_append (st : ForkchoiceState)
    (attrs : Option PayloadAttributes)
    (pre rs : List (ClientResp ForkchoiceUpdated))
    (h : pre.all fcuRetriableV3 = true) :
    fork_choice_updated_v3_wait st attrs (pre ++ rs) =
      (List.replicate pre.length (st, attrs) ++
          (fork_choice_updated_v3_wait st attrs rs).1,
        (fork_choice_updated_v3_wait st attrs rs).2) := by
  induction pre with
  | nil => simp
  | cons r pre ih =>
    rw [List.all_cons, Bool.and_eq_true] at h
    obtain ⟨hr, hpre⟩ := h
    cases r with
    | error e => simp [fcuRetriableV3] at hr
    | ok s =>
      rw [fcuRetriableV3, Bool.and_eq_true] at hr
      obtain ⟨hv, hi⟩ := hr
      have hs : ¬s.payload_status.status = PayloadStatusEnum.Valid := by
        simpa using hv
      have hinv : s.payload_status.status.is_invalid = false := by simpa using hi
      simp [fork_choice_updated_v3_wait, hs, hinv, ih hpre,
        List.replicate_succ]

/-- Any result returned by `new_payload_v1_wait` has status `Valid`. -/
theorem new_payload_v1_wait_ok (payload : ExecutionPayloadV1)
    (rs : List (ClientResp PayloadStatus)) (res : PayloadStatus)
    (h : (new_payload_v1_wait payload rs).2 = .ok res) :
    res.status = PayloadStatusEnum.Valid := by
  induction rs with
  | nil => simp [new_payload_v1_wait] at h
  | cons r rest ih =>
    cases r with
    | error e => simp [new_payload_v1_wait] at h
    | ok s =>
      by_cases hs : s.status = PayloadStatusEnum.Valid
      · simp [new_payload_v1_wait, hs] at h
        exact h ▸ hs
      · simp [new_payload_v1_wait, hs] at h
        exact ih h

/-- Any result returned by `new_payload_v2_wait` has status `Valid`. -/
theorem new_payload_v2_wait_ok (payload : ExecutionPayloadInputV2)
    (rs : List (ClientResp PayloadStatus)) (res : PayloadStatus)
    (h : (new_payload_v2_wait payload rs).2 = .ok res) :
    res.status = PayloadStatusEnum.Valid := by
  induction rs with
  | nil => simp [new_payload_v2_wait] at h
  | cons r rest ih =>
    cases r with
    | error e => simp [new_payload_v2_wait] at h
    | ok s =>
      by_cases hs : s.status = PayloadStatusEnum.Valid
      · simp [new_payload_v2_wait, hs] at h
        exact h ▸ hs
      · simp [new_payload_v2_wait, hs] at h
        exact ih h

/-- Any result returned by `new_payload_v3_wait` has status `Valid`. -/
theorem new_payload_v3_wait_ok (payload : ExecutionPayloadV3)
    (versioned_hashes : List B256) (parent_beacon_block_root : B256)
    (rs : List (ClientResp PayloadStatus)) (res : PayloadStatus)
    (h : (new_payload_v3_wait payload versioned_hashes
      parent_beacon_block_root rs).2 = .ok res) :
    res.status = PayloadStatusEnum.Valid := by
  induction rs with
  | nil => simp [new_payload_v3_wait] at h
  | cons r rest ih =>
    cases r with
    | error e => simp [new_payload_v3_wait] at h
    | ok s =>
      by_cases hs : s.status = PayloadStatusEnum.Valid
      · simp [new_payload_v3_wait, hs] at h
        exact h ▸ hs
      · by_cases hi : s.status.is_invalid
        · simp [new_payload_v3_wait, hs, hi] at h
        · simp [new_payload_v3_wait, hs, hi] at h
          exact ih h

/-- Any result returned by `fork_choice_updated_v1_wait` has inner status
`Valid`. -/
theorem fork_choice_updated_v1_wait_ok (st : ForkchoiceState)
    (attrs : Option PayloadAttributes)
    (rs : List (ClientResp ForkchoiceUpdated)) (res : ForkchoiceUpdated)
    (h : (fork_choice_updated_v1_wait st attrs rs).2 = .ok res) :
    res.payload_status.status = PayloadStatusEnum.Valid := by
  induction rs with
  | nil => simp [fork_choice_updated_v1_wait] at h
  | cons r rest ih =>
    cases r with
    | error e => simp [fork_choice_updated_v1_wait] at h
    | ok s =>
      by_cases hs : s.payload_status.status = PayloadStatusEnum.Valid
      · simp [fork_choice_updated_v1_wait, hs] at h
        exact h ▸ hs
      · simp [fork_choice_updated_v1_wait, hs] at h
        exact ih h

/-- Any result returned by `fork_choice_updated_v2_wait` has inner status
`Valid`. -/
theorem fork_choice_updated_v2_wait_ok (st : ForkchoiceState)
    (attrs : Option PayloadAttributes)
    (rs : List (ClientResp ForkchoiceUpdated)) (res : ForkchoiceUpdated)
    (h : (fork_choice_updated_v2_wait st attrs rs).2 = .ok res) :
    res.payload_status.status = PayloadStatusEnum.Valid := by
  induction rs with
  | nil => simp [fork_choice_updated_v2_wait] at h
  | cons r rest ih =>
    cases r with
    | error e => simp [fork_choice_updated_v2_wait] at h
    | ok s =>
      by_cases hs : s.payload_status.status = PayloadStatusEnum.Valid
      · simp [fork_choice_updated_v2_wait, hs] at h
        exact h ▸ hs
      · simp [fork_choice_updated_v2_wait, hs] at h
        exact ih h

/-- Any result returned by `fork_choice_updated_v3_wait` has inner status
`Valid`. -/
theorem fork_choice_updated_v3_wait_ok (st : ForkchoiceState)
    (attrs : Option PayloadAttributes)
    (rs : List (ClientResp ForkchoiceUpdated)) (res : ForkchoiceUpdated)
    (h : (fork_choice_updated_v3_wait st attrs rs).2 = .ok res) :
    res.payload_status.status = PayloadStatusEnum.Valid := by
  induction rs with
  | nil => simp [fork_choice_updated_v3_wait] at h
  | cons r rest ih =>
    cases r with
    | error e => simp [fork_choice_updated_v3_wait] at h
    | ok s =>
      by_cases hs : s.payload_status.status = PayloadStatusEnum.Valid
      · simp [fork_choice_updated_v3_wait, hs] at h
        exact h ▸ hs
      · by_cases hi : s.payload_status.status.is_invalid
        · simp [fork_choice_updated_v3_wait, hs, hi] at h
        · simp [fork_choice_updated_v3_wait, hs, hi] at h
          exact ih h

/-- Every request issued by `new_payload_v1_wait` is the original payload. -/
theorem new_payload_v1_wait_requests (payload : ExecutionPayloadV1)
    (rs : List (ClientResp PayloadStatus)) :
    (new_payload_v1_wait payload rs).1 =
      List.replicate (new_payload_v1_wait payload rs).1.length payload := by
  induction rs with
  | nil => rfl
  | cons r rest ih =>
    cases r with
    | error e => rfl
    | ok s =>
      by_cases hs : s.status = PayloadStatusEnum.Valid
      · simp [new_payload_v1_wait, hs]
      · simpa [new_payload_v1_wait, hs, List.replicate_succ] using ih

/-- Every request issued by `new_payload_v2_wait` is the original payload. -/
theorem new_payload_v2_wait_requests (payload : ExecutionPayloadInputV2)
    (rs : List (ClientResp PayloadStatus)) :
    (new_payload_v2_wait payload rs).1 =
      List.replicate (new_payload_v2_wait payload rs).1.length payload := by
  induction rs with
  | nil => rfl
  | cons r rest ih =>
    cases r with
    | error e => rfl
    | ok s =>
      by_cases hs : s.status = PayloadStatusEnum.Valid
      · simp [new_payload_v2_wait, hs]
      · simpa [new_payload_v2_wait, hs, List.replicate_succ] using ih

/-- Every request issued by `new_payload_v3_wait` is the original triple of
payload, versioned hashes and parent beacon block root. -/
theorem new_payload_v3_wait_requests (payload : ExecutionPayloadV3)
    (versioned_hashes : List B256) (parent_beacon_block_root : B256)
    (rs : List (ClientResp PayloadStatus)) :
    (new_payload_v3_wait payload versioned_hashes parent_beacon_block_root
        rs).1 =
      List.replicate
        (new_payload_v3_wait payload versioned_hashes parent_beacon_block_root
          rs).1.length
        (payload, versioned_hashes, parent_beacon_block_root) := by
  induction rs with
  | nil => rfl
  | cons r rest ih =>
    cases r with
    | error e => rfl
    | ok s =>
      by_cases hs : s.status = PayloadStatusEnum.Valid
      · simp [new_payload_v3_wait, hs]
      · by_cases hi : s.status.is_invalid
        · simp [new_payload_v3_wait, hs, hi]
        · simpa [new_payload_v3_wait, hs, hi, List.replicate_succ] using ih

/-- Every request issued by `fork_choice_updated_v1_wait` is the original
state/attributes pair. -/
theorem fork_choice_updated_v1_wait_requests (st : ForkchoiceState)
    (attrs : Option PayloadAttributes)
    (rs : List (ClientResp ForkchoiceUpdated)) :
    (fork_choice_updated_v1_wait st attrs rs).1 =
      List.replicate (fork_choice_updated_v1_wait st attrs rs).1.length
        (st, attrs) := by
  induction rs with
  | nil => rfl
  | cons r rest ih =>
    cases r with
    | error e => rfl
    | ok s =>
      by_cases hs : s.payload_status.status = PayloadStatusEnum.Valid
      · simp [fork_choice_updated_v1_wait, hs]
      · simpa [fork_choice_updated_v1_wait, hs, List.replicate_succ] using ih

/-- Every request issued by `fork_choice_updated_v2_wait` is the original
state/attributes pair. -/
theorem fork_choice_updated_v2_wait_requests (st : ForkchoiceState)
    (attrs : Option PayloadAttributes)
    (rs : List (ClientResp ForkchoiceUpdated)) :
    (fork_choice_updated_v2_wait st attrs rs).1 =
      List.replicate (fork_choice_updated_v2_wait st attrs rs).1.length
        (st, attrs) := by
  induction rs with
  | nil => rfl
  | cons r rest ih =>
    cases r with
    | error e => rfl
    | ok s =>
      by_cases hs : s.payload_status.status = PayloadStatusEnum.Valid
      · simp [fork_choice_updated_v2_wait, hs]
      · simpa [fork_choice_updated_v2_wait, hs, List.replicate_succ] using ih

/-- Every request issued by `fork_choice_updated_v3_wait` is the original
state/attributes pair. -/
theorem fork_choice_updated_v3_wait_requests (st : ForkchoiceState)
    (attrs : Option PayloadAttributes)
    (rs : List (ClientResp ForkchoiceUpdated)) :
    (fork_choice_updated_v3_wait st attrs rs).1 =
      List.replicate (fork_choice_updated_v3_wait st attrs rs).1.length
        (st, attrs) := by
  induction rs with
  | nil => rfl
  | cons r rest ih =>
    cases r with
    | error e => rfl
    | ok s =>
      by_cases hs : s.payload_status.status = PayloadStatusEnum.Valid
      · simp [fork_choice_updated_v3_wait, hs]
      · by_cases hi : s.payload_status.status.is_invalid
        · simp [fork_choice_updated_v3_wait, hs, hi]
        · simpa [fork_choice_updated_v3_wait, hs, hi, List.replicate_succ]
            using ih

/-- `new_payload_v1_wait` never produces the fatal abort. -/
theorem new_payload_v1_wait_no_fatal (payload : ExecutionPayloadV1)
    (rs : List (ClientResp PayloadStatus)) :
    (new_payload_v1_wait payload rs).2.is_fatal = false := by
  induction rs with
  | nil => rfl
  | cons r rest ih =>
    cases r with
    | error e => rfl
    | ok s =>
      by_cases hs : s.status = PayloadStatusEnum.Valid
      · simp [new_payload_v1_wait, hs, WaitOutcome.is_fatal]
      · simpa [new_payload_v1_wait, hs] using ih

/-- `new_payload_v2_wait` never produces the fatal abort. -/
theorem new_payload_v2_wait_no_fatal (payload : ExecutionPayloadInputV2)
    (rs : List (ClientResp PayloadStatus)) :
    (new_payload_v2_wait payload rs).2.is_fatal = false := by
  induction rs with
  | nil => rfl
  | cons r rest ih =>
    cases r with
    | error e => rfl
    | ok s =>
      by_cases hs : s.status = PayloadStatusEnum.Valid
      · simp [new_payload_v2_wait, hs, WaitOutcome.is_fatal]
      · simpa [new_payload_v2_wait, hs] using ih

/-- `fork_choice_updated_v1_wait` never produces the fatal abort. -/
theorem fork_choice_updated_v1_wait_no_fatal (st : ForkchoiceState)
    (attrs : Option PayloadAttributes)
    (rs : List (ClientResp ForkchoiceUpdated)) :
    (fork_choice_updated_v1_wait st attrs rs).2.is_fatal = false := by
  induction rs with
  | nil => rfl
  | cons r rest ih =>
    cases r with
    | error e => rfl
    | ok s =>
      by_cases hs : s.payload_status.status = PayloadStatusEnum.Valid
      · simp [fork_choice_updated_v1_wait, hs, WaitOutcome.is_fatal]
      · simpa [fork_choice_updated_v1_wait, hs] using ih

/-- `fork_choice_updated_v2_wait` never produces the fatal abort. -/
theorem fork_choice_updated_v2_wait_no_fatal (st : ForkchoiceState)
    (attrs : Option PayloadAttributes)
    (rs : List (ClientResp ForkchoiceUpdated)) :
    (fork_choice_updated_v2_wait st attrs rs).2.is_fatal = false := by
  induction rs with
  | nil => rfl
  | cons r rest ih =>
    cases r with
    | error e => rfl
    | ok s =>
      by_cases hs : s.payload_status.status = PayloadStatusEnum.Valid
      · simp [fork_choice_updated_v2_wait, hs, WaitOutcome.is_fatal]
      · simpa [fork_choice_updated_v2_wait, hs] using ih

/-- Functionality of the run relation: two derivations over the same
response sequence produce the same requests and the same outcome. -/
theorem engineWaitRel_eq {Req Resp : Type}
    {getStatus : Resp → PayloadStatusEnum}
    {onInvalid : Resp → Option FatalDiag} {req : Req}
    {rs : List (ClientResp Resp)} {o₁ o₂ : List Req × WaitOutcome Resp}
    (h₁ : EngineWaitRel getStatus onInvalid req rs o₁)
    (h₂ : EngineWaitRel getStatus onInvalid req rs o₂) : o₁ = o₂ := by
  induction h₁ generalizing o₂ with
  | pending => cases h₂ with
    | pending => rfl
  | transport e rest => cases h₂ with
    | transport => rfl
  | valid s rest h => cases h₂ with
    | valid => rfl
    | fatal _ _ _ h2 => exact absurd h h2
    | retry _ _ _ _ h2 => exact absurd h h2
  | fatal s rest d h hd => cases h₂ with
    | valid _ _ h2 => exact absurd h2 h
    | fatal _ _ d2 _ hd2 =>
      injection hd.symm.trans hd2 with hdd
      rw [hdd]
    | retry _ _ _ _ _ hd2 => exact Option.noConfusion (hd.symm.trans hd2)
  | retry s rest reqs out h hd tail ih => cases h₂ with
    | valid _ _ h2 => exact absurd h2 h
    | fatal _ _ d2 _ hd2 => exact Option.noConfusion (hd.symm.trans hd2)
    | retry _ _ reqs2 out2 _ _ tail2 =>
      injection ih tail2 with ha hb
      rw [ha, hb]

/-- `new_payload_v1_wait` realizes the run relation. -/
theorem new_payload_v1_wait_rel (payload : ExecutionPayloadV1)
    (rs : List (ClientResp PayloadStatus)) :
    EngineWaitRel PayloadStatus.status noFatal payload rs
      (new_payload_v1_wait payload rs) := by
  induction rs with
  | nil => exact .pending
  | cons r rest ih =>
    cases r with
    | error e => exact .transport e rest
    | ok s =>
      by_cases hs : s.status = PayloadStatusEnum.Valid
      · have heq : new_payload_v1_wait payload (.ok s :: rest) =
            ([payload], .ok s) := by
          simp [new_payload_v1_wait, hs]
        rw [heq]
        exact .valid s rest hs
      · have heq : new_payload_v1_wait payload (.ok s :: rest) =
            (payload :: (new_payload_v1_wait payload rest).1,
              (new_payload_v1_wait payload rest).2) := by
          simp [new_payload_v1_wait, hs]
        rw [heq]
        exact .retry s rest _ _ hs rfl ih

/-- `new_payload_v2_wait` realizes the run relation. -/
theorem new_payload_v2_wait_rel (payload : ExecutionPayloadInputV2)
    (rs : List (ClientResp PayloadStatus)) :
    EngineWaitRel PayloadStatus.status noFatal payload rs
      (new_payload_v2_wait payload rs) := by
  induction rs with
  | nil => exact .pending
  | cons r rest ih =>
    cases r with
    | error e => exact .transport e rest
    | ok s =>
      by_cases hs : s.status = PayloadStatusEnum.Valid
      · have heq : new_payload_v2_wait payload (.ok s :: rest) =
            ([payload], .ok s) := by
          simp [new_payload_v2_wait, hs]
        rw [heq]
        exact .valid s rest hs
      · have heq : new_payload_v2_wait payload (.ok s :: rest) =
            (payload :: (new_payload_v2_wait payload rest).1,
              (new_payload_v2_wait payload rest).2) := by
          simp [new_payload_v2_wait, hs]
        rw [heq]
        exact .retry s rest _ _ hs rfl ih

/-- `new_payload_v3_wait` realizes the run relation with the V3 fatal
diagnostic. -/
theorem new_payload_v3_wait_rel (payload : ExecutionPayloadV3)
    (versioned_hashes : List B256) (parent_beacon_block_root : B256)
    (rs : List (ClientResp PayloadStatus)) :
    EngineWaitRel PayloadStatus.status
      (npV3OnInvalid payload versioned_hashes parent_beacon_block_root)
      (payload, versioned_hashes, parent_beacon_block_root) rs
      (new_payload_v3_wait payload versioned_hashes parent_beacon_block_root
        rs) := by
  induction rs with
  | nil => exact .pending
  | cons r rest ih =>
    cases r with
    | error e => exact .transport e rest
    | ok s =>
      by_cases hs : s.status = PayloadStatusEnum.Valid
      · have heq : new_payload_v3_wait payload versioned_hashes
            parent_beacon_block_root (.ok s :: rest) =
            ([(payload, versioned_hashes, parent_beacon_block_root)],
              .ok s) := by
          simp [new_payload_v3_wait, hs]
        rw [heq]
        exact .valid s rest hs
      · by_cases hi : s.status.is_invalid
        · have heq : new_payload_v3_wait payload versioned_hashes
              parent_beacon_block_root (.ok s :: rest) =
              ([(payload, versioned_hashes, parent_beacon_block_root)],
                .fatal (.newPayload ⟨s, payload, versioned_hashes,
                  parent_beacon_block_root⟩)) := by
            simp [new_payload_v3_wait, hs, hi]
          rw [heq]
          exact .fatal s rest _ hs (by simp [npV3OnInvalid, hi])
        · have heq : new_payload_v3_wait payload versioned_hashes
              parent_beacon_block_root (.ok s :: rest) =
              ((payload, versioned_hashes, parent_beacon_block_root) ::
                  (new_payload_v3_wait payload versioned_hashes
                    parent_beacon_block_root rest).1,
                (new_payload_v3_wait payload versioned_hashes
                  parent_beacon_block_root rest).2) := by
            simp [new_payload_v3_wait, hs, hi]
          rw [heq]
          exact .retry s rest _ _ hs (by simp [npV3OnInvalid, hi]) ih

/-- `fork_choice_updated_v1_wait` realizes the run relation. -/
theorem fork_choice_updated_v1_wait_rel (st : ForkchoiceState)
    (attrs : Option PayloadAttributes)
    (rs : List (ClientResp ForkchoiceUpdated)) :
    EngineWaitRel fcuStatus noFatal (st, attrs) rs
      (fork_choice_updated_v1_wait st attrs rs) := by
  induction rs with
  | nil => exact .pending
  | cons r rest ih =>
    cases r with
    | error e => exact .transport e rest
    | ok s =>
      by_cases hs : s.payload_status.status = PayloadStatusEnum.Valid
      · have heq : fork_choice_updated_v1_wait st attrs (.ok s :: rest) =
            ([(st, attrs)], .ok s) := by
          simp [fork_choice_updated_v1_wait, hs]
        rw [heq]
        exact .valid s rest hs
      · have heq : fork_choice_updated_v1_wait st attrs (.ok s :: rest) =
            ((st, attrs) :: (fork_choice_updated_v1_wait st attrs rest).1,
              (fork_choice_updated_v1_wait st attrs rest).2) := by
          simp [fork_choice_updated_v1_wait, hs]
        rw [heq]
        exact .retry s rest _ _ hs rfl ih

/-- `fork_choice_updated_v2_wait` realizes the run relation. -/
theorem fork_choice_updated_v2_wait_rel (st : ForkchoiceState)
    (attrs : Option PayloadAttributes)
    (rs : List (ClientResp ForkchoiceUpdated)) :
    EngineWaitRel fcuStatus noFatal (st, attrs) rs
      (fork_choice_updated_v2_wait st attrs rs) := by
  induction rs with
  | nil => exact .pending
  | cons r rest ih =>
    cases r with
    | error e => exact .transport e rest
    | ok s =>
      by_cases hs : s.payload_status.status = PayloadStatusEnum.Valid
      · have heq : fork_choice_updated_v2_wait st attrs (.ok s :: rest) =
            ([(st, attrs)], .ok s) := by
          simp [fork_choice_updated_v2_wait, hs]
        rw [heq]
        exact .valid s rest hs
      · have heq : fork_choice_updated_v2_wait st attrs (.ok s :: rest) =
            ((st, attrs) :: (fork_choice_updated_v2_wait st attrs rest).1,
              (fork_choice_updated_v2_wait st attrs rest).2) := by
          simp [fork_choice_updated_v2_wait, hs]
        rw [heq]
        exact .retry s rest _ _ hs rfl ih

/-- `fork_choice_updated_v3_wait` realizes the run relation with the V3
fatal diagnostic. -/
theorem fork_choice_updated_v3_wait_rel (st : ForkchoiceState)
    (attrs : Option PayloadAttributes)
    (rs : List (ClientResp ForkchoiceUpdated)) :
    EngineWaitRel fcuStatus (fcuV3OnInvalid st attrs) (st, attrs) rs
      (fork_choice_updated_v3_wait st attrs rs) := by
  induction rs with
  | nil => exact .pending
  | cons r rest ih =>
    cases r with
    | error e => exact .transport e rest
    | ok s =>
      by_cases hs : s.payload_status.status = PayloadStatusEnum.Valid
      · have heq : fork_choice_updated_v3_wait st attrs (.ok s :: rest) =
            ([(st, attrs)], .ok s) := by
          simp [fork_choice_updated_v3_wait, hs]
        rw [heq]
        exact .valid s rest hs
      · by_cases hi : s.payload_status.status.is_invalid
        · have heq : fork_choice_updated_v3_wait st attrs (.ok s :: rest) =
              ([(st, attrs)], .fatal (.forkchoice ⟨s, st, attrs⟩)) := by
            simp [fork_choice_updated_v3_wait, hs, hi]
          rw [heq]
          exact .fatal s rest _ hs (by simp [fcuV3OnInvalid, hi])
        · have heq : fork_choice_updated_v3_wait st attrs (.ok s :: rest) =
              ((st, attrs) :: (fork_choice_updated_v3_wait st attrs rest).1,
                (fork_choice_updated_v3_wait st attrs rest).2) := by
            simp [fork_choice_updated_v3_wait, hs, hi]
          rw [heq]
          exact .retry s rest _ _ hs (by simp [fcuV3OnInvalid, hi]) ih

/-!
Claim theorems.
-/

/-- Claim C1: for every wait operation and every finite client response
sequence ending in `Valid` (and, for the V3 operations, containing no
`Invalid` before that point), the operation issues exactly as many client
calls as there are responses in the sequence and returns the final `Valid`
response unmodified. -/
theorem wait_convergence :
    (∀ (payload : ExecutionPayloadV1) (pre : List (ClientResp PayloadStatus))
        (final : PayloadStatus), pre.all retriableV12 = true →
        final.status = PayloadStatusEnum.Valid →
        (new_payload_v1_wait payload (pre ++ [Except.ok final])).1.length =
            pre.length + 1 ∧
          (new_payload_v1_wait payload (pre ++ [Except.ok final])).2 =
            .ok final) ∧
    (∀ (payload : ExecutionPayloadInputV2)
        (pre : List (ClientResp PayloadStatus)) (final : PayloadStatus),
        pre.all retriableV12 = true →
        final.status = PayloadStatusEnum.Valid →
        (new_payload_v2_wait payload (pre ++ [Except.ok final])).1.length =
            pre.length + 1 ∧
          (new_payload_v2_wait payload (pre ++ [Except.ok final])).2 =
            .ok final) ∧
    (∀ (payload : ExecutionPayloadV3) (versioned_hashes : List B256)
        (parent_beacon_block_root : B256)
        (pre : List (ClientResp PayloadStatus)) (final : PayloadStatus),
        pre.all retriableV3 = true →
        final.status = PayloadStatusEnum.Valid →
        (new_payload_v3_wait payload versioned_hashes parent_beacon_block_root
              (pre ++ [Except.ok final])).1.length = pre.length + 1 ∧
          (new_payload_v3_wait payload versioned_hashes
              parent_beacon_block_root (pre ++ [Except.ok final])).2 =
            .ok final) ∧
    (∀ (st : ForkchoiceState) (attrs : Option PayloadAttributes)
        (pre : List (ClientResp ForkchoiceUpdated))
        (final : ForkchoiceUpdated), pre.all fcuRetriableV12 = true →
        final.payload_status.status = PayloadStatusEnum.Valid →
        (fork_choice_updated_v1_wait st attrs
              (pre ++ [Except.ok final])).1.length = pre.length + 1 ∧
          (fork_choice_updated_v1_wait st attrs
              (pre ++ [Except.ok final])).2 = .ok final) ∧
    (∀ (st : ForkchoiceState) (attrs : Option PayloadAttributes)
        (pre : List (ClientResp ForkchoiceUpdated))
        (final : ForkchoiceUpdated), pre.all fcuRetriableV12 = true →
        final.payload_status.status = PayloadStatusEnum.Valid →
        (fork_choice_updated_v2_wait st attrs
              (pre ++ [Except.ok final])).1.length = pre.length + 1 ∧
          (fork_choice_updated_v2_wait st attrs
              (pre ++ [Except.ok final])).2 = .ok final) ∧
    (∀ (st : ForkchoiceState) (attrs : Option PayloadAttributes)
        (pre : List (ClientResp ForkchoiceUpdated))
        (final : ForkchoiceUpdated), pre.all fcuRetriableV3 = true →
        final.payload_status.status = PayloadStatusEnum.Valid →
        (fork_choice_updated_v3_wait st attrs
              (pre ++ [Except.ok final])).1.length = pre.length + 1 ∧
          (fork_choice_updated_v3_wait st attrs
              (pre ++ [Except.ok final])).2 = .ok final) := by
  refine ⟨?_, ?_, ?_, ?_, ?_, ?_⟩
  · intro payload pre final hpre hfinal
    rw [new_payload_v1_wait_append payload pre _ hpre]
    simp [new_payload_v1_wait, hfinal]
  · intro payload pre final hpre hfinal
    rw [new_payload_v2_wait_append payload pre _ hpre]
    simp [new_payload_v2_wait, hfinal]
  · intro payload vh root pre final hpre hfinal
    rw [new_payload_v3_wait_append payload vh root pre _ hpre]
    simp [new_payload_v3_wait, hfinal]
  · intro st attrs pre final hpre hfinal
    rw [fork_choice_updated_v1_wait_append st attrs pre _ hpre]
    simp [fork_choice_updated_v1_wait, hfinal]
  · intro st attrs pre final hpre hfinal
    rw [fork_choice_updated_v2_wait_append st attrs pre _ hpre]
    simp [fork_choice_updated_v2_wait, hfinal]
  · intro st attrs pre final hpre hfinal
    rw [fork_choice_updated_v3_wait_append st attrs pre _ hpre]
    simp [fork_choice_updated_v3_wait, hfinal]

/-- Witness for claim C1: `new_payload_v1_wait` on the response sequence
`[Syncing, Valid]` issues two calls and returns the `Valid` response. -/
theorem wait_convergence_witness :
    (new_payload_v1_wait samplePayloadV1
        ([Except.ok syncingStatus] ++ [Except.ok validStatus])).1.length =
        1 + 1 ∧
      (new_payload_v1_wait samplePayloadV1
        ([Except.ok syncingStatus] ++ [Except.ok validStatus])).2 =
        .ok validStatus :=
  wait_convergence.1 samplePayloadV1 [Except.ok syncingStatus] validStatus
    (by decide) (by decide)

/-- Claim C2: for the V3 operations, if any client response has status
`Invalid`, the operation makes no further client calls after that response
and raises the fatal condition (the panic), after recording a diagnostic
containing the triggering response and the exact submitted request
(payload/state, and for payload submission also the versioned hashes and
parent beacon block root). -/
theorem v3_fatal_short_circuit :
    (∀ (payload : ExecutionPayloadV3) (versioned_hashes : List B256)
        (parent_beacon_block_root : B256)
        (pre : List (ClientResp PayloadStatus)) (s : PayloadStatus)
        (rest : List (ClientResp PayloadStatus)),
        pre.all retriableV3 = true → s.status.is_invalid = true →
        (new_payload_v3_wait payload versioned_hashes parent_beacon_block_root
              (pre ++ Except.ok s :: rest)).1.length = pre.length + 1 ∧
          (new_payload_v3_wait payload versioned_hashes
              parent_beacon_block_root (pre ++ Except.ok s :: rest)).2 =
            .fatal (.newPayload
              ⟨s, payload, versioned_hashes, parent_beacon_block_root⟩)) ∧
    (∀ (st : ForkchoiceState) (attrs : Option PayloadAttributes)
        (pre : List (ClientResp ForkchoiceUpdated)) (s : ForkchoiceUpdated)
        (rest : List (ClientResp ForkchoiceUpdated)),
        pre.all fcuRetriableV3 = true →
        s.payload_status.status.is_invalid = true →
        (fork_choice_updated_v3_wait st attrs
              (pre ++ Except.ok s :: rest)).1.length = pre.length + 1 ∧
          (fork_choice_updated_v3_wait st attrs
              (pre ++ Except.ok s :: rest)).2 =
            .fatal (.forkchoice ⟨s, st, attrs⟩)) := by
  constructor
  · intro payload vh root pre s rest hpre hinv
    have hI : s.status = PayloadStatusEnum.Invalid :=
      (PayloadStatusEnum.is_invalid_eq s.status).mp hinv
    rw [new_payload_v3_wait_append payload vh root pre _ hpre]
    simp [new_payload_v3_wait, hI, PayloadStatusEnum.is_invalid]
  · intro st attrs pre s rest hpre hinv
    have hI : s.payload_status.status = PayloadStatusEnum.Invalid :=
      (PayloadStatusEnum.is_invalid_eq s.payload_status.status).mp hinv
    rw [fork_choice_updated_v3_wait_append st attrs pre _ hpre]
    simp [fork_choice_updated_v3_wait, hI, PayloadStatusEnum.is_invalid]

/-- Witness for claim C2: `new_payload_v3_wait` on the response sequence
`[Accepted, Invalid]` makes two calls and aborts fatally with the full
diagnostic. -/
theorem v3_fatal_short_circuit_witness :
    (new_payload_v3_wait samplePayloadV3 [5] 6
        ([Except.ok acceptedStatus] ++ Except.ok invalidStatus :: [])).1.length
        = 1 + 1 ∧
      (new_payload_v3_wait samplePayloadV3 [5] 6
          ([Except.ok acceptedStatus] ++ Except.ok invalidStatus :: [])).2 =
        .fatal (.newPayload ⟨invalidStatus, samplePayloadV3, [5], 6⟩) :=
  v3_fatal_short_circuit.1 samplePayloadV3 [5] 6 [Except.ok acceptedStatus]
    invalidStatus [] (by decide) (by decide)

/-- Claim C3: whenever a wait operation returns a result to the caller, the
inner status of that result is `Valid`; no operation ever returns a result
whose inner status is `Syncing`, `Accepted` or `Invalid`. -/
theorem wait_returns_valid :
    (∀ (payload : ExecutionPayloadV1) (rs : List (ClientResp PayloadStatus))
        (res : PayloadStatus), (new_payload_v1_wait payload rs).2 = .ok res →
        res.status = PayloadStatusEnum.Valid) ∧
    (∀ (payload : ExecutionPayloadInputV2)
        (rs : List (ClientResp PayloadStatus)) (res : PayloadStatus),
        (new_payload_v2_wait payload rs).2 = .ok res →
        res.status = PayloadStatusEnum.Valid) ∧
    (∀ (payload : ExecutionPayloadV3) (versioned_hashes : List B256)
        (parent_beacon_block_root : B256)
        (rs : List (ClientResp PayloadStatus)) (res : PayloadStatus),
        (new_payload_v3_wait payload versioned_hashes parent_beacon_block_root
            rs).2 = .ok res →
        res.status = PayloadStatusEnum.Valid) ∧
    (∀ (st : ForkchoiceState) (attrs : Option PayloadAttributes)
        (rs : List (ClientResp ForkchoiceUpdated)) (res : ForkchoiceUpdated),
        (fork_choice_updated_v1_wait st attrs rs).2 = .ok res →
        res.payload_status.status = PayloadStatusEnum.Valid) ∧
    (∀ (st : ForkchoiceState) (attrs : Option PayloadAttributes)
        (rs : List (ClientResp ForkchoiceUpdated)) (res : ForkchoiceUpdated),
        (fork_choice_updated_v2_wait st attrs rs).2 = .ok res →
        res.payload_status.status = PayloadStatusEnum.Valid) ∧
    (∀ (st : ForkchoiceState) (attrs : Option PayloadAttributes)
        (rs : List (ClientResp ForkchoiceUpdated)) (res : ForkchoiceUpdated),
        (fork_choice_updated_v3_wait st attrs rs).2 = .ok res →
        res.payload_status.status = PayloadStatusEnum.Valid) :=
  ⟨new_payload_v1_wait_ok, new_payload_v2_wait_ok, new_payload_v3_wait_ok,
    fork_choice_updated_v1_wait_ok, fork_choice_updated_v2_wait_ok,
    fork_choice_updated_v3_wait_ok⟩

/-- Witness for claim C3: the result returned by `new_payload_v1_wait` on
the response sequence `[Syncing, Valid]` has status `Valid`. -/
theorem wait_returns_valid_witness :
    validStatus.status = PayloadStatusEnum.Valid :=
  wait_returns_valid.1 samplePayloadV1
    [Except.ok syncingStatus, Except.ok validStatus] validStatus (by decide)

/-- Claim C4: for the V1 and V2 wait operations, an `Invalid` client
response does not terminate the polling loop and does not abort: it is
treated exactly like `Syncing`/`Accepted` and the same input is resubmitted
on the next iteration; in particular, on the response sequence
`[Invalid, Valid]` the operation makes exactly two calls and returns the
`Valid` response. -/
theorem v12_retry_on_invalid :
    (∀ (payload : ExecutionPayloadV1) (s : PayloadStatus)
        (rest : List (ClientResp PayloadStatus)),
        s.status = PayloadStatusEnum.Invalid →
        new_payload_v1_wait payload (Except.ok s :: rest) =
          (payload :: (new_payload_v1_wait payload rest).1,
            (new_payload_v1_wait payload rest).2)) ∧
    (∀ (payload : ExecutionPayloadInputV2) (s : PayloadStatus)
        (rest : List (ClientResp PayloadStatus)),
        s.status = PayloadStatusEnum.Invalid →
        new_payload_v2_wait payload (Except.ok s :: rest) =
          (payload :: (new_payload_v2_wait payload rest).1,
            (new_payload_v2_wait payload rest).2)) ∧
    (∀ (st : ForkchoiceState) (attrs : Option PayloadAttributes)
        (s : ForkchoiceUpdated) (rest : List (ClientResp ForkchoiceUpdated)),
        s.payload_status.status = PayloadStatusEnum.Invalid →
        fork_choice_updated_v1_wait st attrs (Except.ok s :: rest) =
          ((st, attrs) :: (fork_choice_updated_v1_wait st attrs rest).1,
            (fork_choice_updated_v1_wait st attrs rest).2)) ∧
    (∀ (st : ForkchoiceState) (attrs : Option PayloadAttributes)
        (s : ForkchoiceUpdated) (rest : List (ClientResp ForkchoiceUpdated)),
        s.payload_status.status = PayloadStatusEnum.Invalid →
        fork_choice_updated_v2_wait st attrs (Except.ok s :: rest) =
          ((st, attrs) :: (fork_choice_updated_v2_wait st attrs rest).1,
            (fork_choice_updated_v2_wait st attrs rest).2)) ∧
    (∀ (payload : ExecutionPayloadV1) (s v : PayloadStatus),
        s.status = PayloadStatusEnum.Invalid →
        v.status = PayloadStatusEnum.Valid →
        (new_payload_v1_wait payload [Except.ok s, Except.ok v]).1.length = 2 ∧
          (new_payload_v1_wait payload [Except.ok s, Except.ok v]).2 =
            .ok v) ∧
    (∀ (payload : ExecutionPayloadInputV2) (s v : PayloadStatus),
        s.status = PayloadStatusEnum.Invalid →
        v.status = PayloadStatusEnum.Valid →
        (new_payload_v2_wait payload [Except.ok s, Except.ok v]).1.length = 2 ∧
          (new_payload_v2_wait payload [Except.ok s, Except.ok v]).2 =
            .ok v) ∧
    (∀ (st : ForkchoiceState) (attrs : Option PayloadAttributes)
        (s v : ForkchoiceUpdated),
        s.payload_status.status = PayloadStatusEnum.Invalid →
        v.payload_status.status = PayloadStatusEnum.Valid →
        (fork_choice_updated_v1_wait st attrs
              [Except.ok s, Except.ok v]).1.length = 2 ∧
          (fork_choice_updated_v1_wait st attrs
              [Except.ok s, Except.ok v]).2 = .ok v) ∧
    (∀ (st : ForkchoiceState) (attrs : Option PayloadAttributes)
        (s v : ForkchoiceUpdated),
        s.payload_status.status = PayloadStatusEnum.Invalid →
        v.payload_status.status = PayloadStatusEnum.Valid →
        (fork_choice_updated_v2_wait st attrs
              [Except.ok s, Except.ok v]).1.length = 2 ∧
          (fork_choice_updated_v2_wait st attrs
              [Except.ok s, Except.ok v]).2 = .ok v) := by
  refine ⟨?_, ?_, ?_, ?_, ?_, ?_, ?_, ?_⟩
  · intro payload s rest h
    simp [new_payload_v1_wait, h]
  · intro payload s rest h
    simp [new_payload_v2_wait, h]
  · intro st attrs s rest h
    simp [fork_choice_updated_v1_wait, h]
  · intro st attrs s rest h
    simp [fork_choice_updated_v2_wait, h]
  · intro payload s v hs hv
    simp [new_payload_v1_wait, hs, hv]
  · intro payload s v hs hv
    simp [new_payload_v2_wait, hs, hv]
  · intro st attrs s v hs hv
    simp [fork_choice_updated_v1_wait, hs, hv]
  · intro st attrs s v hs hv
    simp [fork_choice_updated_v2_wait, hs, hv]

/-- Witness for claim C4: `new_payload_v1_wait` on `[Invalid, Valid]` makes
two calls and returns the `Valid` response. -/
theorem v12_retry_on_invalid_witness :
    (new_payload_v1_wait samplePayloadV1
        [Except.ok invalidStatus, Except.ok validStatus]).1.length = 2 ∧
      (new_payload_v1_wait samplePayloadV1
        [Except.ok invalidStatus, Except.ok validStatus]).2 =
        .ok validStatus :=
  v12_retry_on_invalid.2.2.2.2.1 samplePayloadV1 invalidStatus validStatus
    (by decide) (by decide)

/-- Claim C5: for every wait operation, a transport failure at attempt `k`
yields no attempt `k + 1` and the transport error is returned to the caller
unchanged. -/
theorem transport_error_fail_fast :
    (∀ (payload : ExecutionPayloadV1) (pre : List (ClientResp PayloadStatus))
        (e : TransportError) (rest : List (ClientResp PayloadStatus)),
        pre.all retriableV12 = true →
        (new_payload_v1_wait payload
              (pre ++ Except.error e :: rest)).1.length = pre.length + 1 ∧
          (new_payload_v1_wait payload (pre ++ Except.error e :: rest)).2 =
            .transportErr e) ∧
    (∀ (payload : ExecutionPayloadInputV2)
        (pre : List (ClientResp PayloadStatus)) (e : TransportError)
        (rest : List (ClientResp PayloadStatus)),
        pre.all retriableV12 = true →
        (new_payload_v2_wait payload
              (pre ++ Except.error e :: rest)).1.length = pre.length + 1 ∧
          (new_payload_v2_wait payload (pre ++ Except.error e :: rest)).2 =
            .transportErr e) ∧
    (∀ (payload : ExecutionPayloadV3) (versioned_hashes : List B256)
        (parent_beacon_block_root : B256)
        (pre : List (ClientResp PayloadStatus)) (e : TransportError)
        (rest : List (ClientResp PayloadStatus)),
        pre.all retriableV3 = true →
        (new_payload_v3_wait payload versioned_hashes parent_beacon_block_root
              (pre ++ Except.error e :: rest)).1.length = pre.length + 1 ∧
          (new_payload_v3_wait payload versioned_hashes
              parent_beacon_block_root (pre ++ Except.error e :: rest)).2 =
            .transportErr e) ∧
    (∀ (st : ForkchoiceState) (attrs : Option PayloadAttributes)
        (pre : List (ClientResp ForkchoiceUpdated)) (e : TransportError)
        (rest : List (ClientResp ForkchoiceUpdated)),
        pre.all fcuRetriableV12 = true →
        (fork_choice_updated_v1_wait st attrs
              (pre ++ Except.error e :: rest)).1.length = pre.length + 1 ∧
          (fork_choice_updated_v1_wait st attrs
              (pre ++ Except.error e :: rest)).2 = .transportErr e) ∧
    (∀ (st : ForkchoiceState) (attrs : Option PayloadAttributes)
        (pre : List (ClientResp ForkchoiceUpdated)) (e : TransportError)
        (rest : List (ClientResp ForkchoiceUpdated)),
        pre.all fcuRetriableV12 = true →
        (fork_choice_updated_v2_wait st attrs
              (pre ++ Except.error e :: rest)).1.length = pre.length + 1 ∧
          (fork_choice_updated_v2_wait st attrs
              (pre ++ Except.error e :: rest)).2 = .transportErr e) ∧
    (∀ (st : ForkchoiceState) (attrs : Option PayloadAttributes)
        (pre : List (ClientResp ForkchoiceUpdated)) (e : TransportError)
        (rest : List (ClientResp ForkchoiceUpdated)),
        pre.all fcuRetriableV3 = true →
        (fork_choice_updated_v3_wait st attrs
              (pre ++ Except.error e :: rest)).1.length = pre.length + 1 ∧
          (fork_choice_updated_v3_wait st attrs
              (pre ++ Except.error e :: rest)).2 = .transportErr e) := by
  refine ⟨?_, ?_, ?_, ?_, ?_, ?_⟩
  · intro payload pre e rest hpre
    rw [new_payload_v1_wait_append payload pre _ hpre]
    simp [new_payload_v1_wait]
  · intro payload pre e rest hpre
    rw [new_payload_v2_wait_append payload pre _ hpre]
    simp [new_payload_v2_wait]
  · intro payload vh root pre e rest hpre
    rw [new_payload_v3_wait_append payload vh root pre _ hpre]
    simp [new_payload_v3_wait]
  · intro st attrs pre e rest hpre
    rw [fork_choice_updated_v1_wait_append st attrs pre _ hpre]
    simp [fork_choice_updated_v1_wait]
  · intro st attrs pre e rest hpre
    rw [fork_choice_updated_v2_wait_append st attrs pre _ hpre]
    simp [fork_choice_updated_v2_wait]
  · intro st attrs pre e rest hpre
    rw [fork_choice_updated_v3_wait_append st attrs pre _ hpre]
    simp [fork_choice_updated_v3_wait]

/-- Witness for claim C5: a first-call transport failure is propagated by
`new_payload_v1_wait` after exactly one attempt. -/
theorem transport_error_fail_fast_witness :
    (new_payload_v1_wait samplePayloadV1
        ([] ++ Except.error sampleErr :: [])).1.length = 0 + 1 ∧
      (new_payload_v1_wait samplePayloadV1
        ([] ++ Except.error sampleErr :: [])).2 = .transportErr sampleErr :=
  transport_error_fail_fast.1 samplePayloadV1 [] sampleErr [] (by decide)

/-- Claim C6: for every wait operation, the request content sent on every
retry attempt is identical field-for-field to the request sent on attempt 1:
the whole request list is a replication of the caller's input (payload, or
payload with versioned hashes and parent beacon block root, or forkchoice
state with attributes), which is never mutated between attempts. -/
theorem request_immutability :
    (∀ (payload : ExecutionPayloadV1) (rs : List (ClientResp PayloadStatus)),
        (new_payload_v1_wait payload rs).1 =
          List.replicate (new_payload_v1_wait payload rs).1.length payload) ∧
    (∀ (payload : ExecutionPayloadInputV2)
        (rs : List (ClientResp PayloadStatus)),
        (new_payload_v2_wait payload rs).1 =
          List.replicate (new_payload_v2_wait payload rs).1.length payload) ∧
    (∀ (payload : ExecutionPayloadV3) (versioned_hashes : List B256)
        (parent_beacon_block_root : B256)
        (rs : List (ClientResp PayloadStatus)),
        (new_payload_v3_wait payload versioned_hashes parent_beacon_block_root
            rs).1 =
          List.replicate
            (new_payload_v3_wait payload versioned_hashes
              parent_beacon_block_root rs).1.length
            (payload, versioned_hashes, parent_beacon_block_root)) ∧
    (∀ (st : ForkchoiceState) (attrs : Option PayloadAttributes)
        (rs : List (ClientResp ForkchoiceUpdated)),
        (fork_choice_updated_v1_wait st attrs rs).1 =
          List.replicate (fork_choice_updated_v1_wait st attrs rs).1.length
            (st, attrs)) ∧
    (∀ (st : ForkchoiceState) (attrs : Option PayloadAttributes)
        (rs : List (ClientResp ForkchoiceUpdated)),
        (fork_choice_updated_v2_wait st attrs rs).1 =
          List.replicate (fork_choice_updated_v2_wait st attrs rs).1.length
            (st, attrs)) ∧
    (∀ (st : ForkchoiceState) (attrs : Option PayloadAttributes)
        (rs : List (ClientResp ForkchoiceUpdated)),
        (fork_choice_updated_v3_wait st attrs rs).1 =
          List.replicate (fork_choice_updated_v3_wait st attrs rs).1.length
            (st, attrs)) :=
  ⟨new_payload_v1_wait_requests, new_payload_v2_wait_requests,
    new_payload_v3_wait_requests, fork_choice_updated_v1_wait_requests,
    fork_choice_updated_v2_wait_requests,
    fork_choice_updated_v3_wait_requests⟩

/-- Claim C7: no wait operation bounds its retries: on any finite response
sequence that contains no terminal status (never `Valid`; for the V1/V2
operations even `Invalid` is non-terminal, for V3 neither `Valid` nor
`Invalid` appears), the operation has not returned — its outcome is still
`pending` — and it has already issued one call per response plus the next
immediate resubmission, with no bound, delay or cancellation inserted. -/
theorem unbounded_polling :
    (∀ (payload : ExecutionPayloadV1) (rs : List (ClientResp PayloadStatus)),
        rs.all retriableV12 = true →
        (new_payload_v1_wait payload rs).2 = .pending ∧
          (new_payload_v1_wait payload rs).1.length = rs.length + 1) ∧
    (∀ (payload : ExecutionPayloadInputV2)
        (rs : List (ClientResp PayloadStatus)),
        rs.all retriableV12 = true →
        (new_payload_v2_wait payload rs).2 = .pending ∧
          (new_payload_v2_wait payload rs).1.length = rs.length + 1) ∧
    (∀ (payload : ExecutionPayloadV3) (versioned_hashes : List B256)
        (parent_beacon_block_root : B256)
        (rs : List (ClientResp PayloadStatus)),
        rs.all retriableV3 = true →
        (new_payload_v3_wait payload versioned_hashes parent_beacon_block_root
              rs).2 = .pending ∧
          (new_payload_v3_wait payload versioned_hashes
              parent_beacon_block_root rs).1.length = rs.length + 1) ∧
    (∀ (st : ForkchoiceState) (attrs : Option PayloadAttributes)
        (rs : List (ClientResp ForkchoiceUpdated)),
        rs.all fcuRetriableV12 = true →
        (fork_choice_updated_v1_wait st attrs rs).2 = .pending ∧
          (fork_choice_updated_v1_wait st attrs rs).1.length =
            rs.length + 1) ∧
    (∀ (st : ForkchoiceState) (attrs : Option PayloadAttributes)
        (rs : List (ClientResp ForkchoiceUpdated)),
        rs.all fcuRetriableV12 = true →
        (fork_choice_updated_v2_wait st attrs rs).2 = .pending ∧
          (fork_choice_updated_v2_wait st attrs rs).1.length =
            rs.length + 1) ∧
    (∀ (st : ForkchoiceState) (attrs : Option PayloadAttributes)
        (rs : List (ClientResp ForkchoiceUpdated)),
        rs.all fcuRetriableV3 = true →
        (fork_choice_updated_v3_wait st attrs rs).2 = .pending ∧
          (fork_choice_updated_v3_wait st attrs rs).1.length =
            rs.length + 1) := by
  refine ⟨?_, ?_, ?_, ?_, ?_, ?_⟩
  · intro payload rs h
    have heq := new_payload_v1_wait_append payload rs [] h
    rw [List.append_nil] at heq
    rw [heq]
    simp [new_payload_v1_wait]
  · intro payload rs h
    have heq := new_payload_v2_wait_append payload rs [] h
    rw [List.append_nil] at heq
    rw [heq]
    simp [new_payload_v2_wait]
  · intro payload vh root rs h
    have heq := new_payload_v3_wait_append payload vh root rs [] h
    rw [List.append_nil] at heq
    rw [heq]
    simp [new_payload_v3_wait]
  · intro st attrs rs h
    have heq := fork_choice_updated_v1_wait_append st attrs rs [] h
    rw [List.append_nil] at heq
    rw [heq]
    simp [fork_choice_updated_v1_wait]
  · intro st attrs rs h
    have heq := fork_choice_updated_v2_wait_append st attrs rs [] h
    rw [List.append_nil] at heq
    rw [heq]
    simp [fork_choice_updated_v2_wait]
  · intro st attrs rs h
    have heq := fork_choice_updated_v3_wait_append st attrs rs [] h
    rw [List.append_nil] at heq
    rw [heq]
    simp [fork_choice_updated_v3_wait]

/-- Witness for claim C7: after `[Syncing, Accepted, Invalid]` the V1
payload loop is still polling — it has issued four calls and returned
nothing. -/
theorem unbounded_polling_witness :
    (new_payload_v1_wait samplePayloadV1
        [Except.ok syncingStatus, Except.ok acceptedStatus,
          Except.ok invalidStatus]).2 = .pending ∧
      (new_payload_v1_wait samplePayloadV1
        [Except.ok syncingStatus, Except.ok acceptedStatus,
          Except.ok invalidStatus]).1.length =
        ([Except.ok syncingStatus, Except.ok acceptedStatus,
          Except.ok invalidStatus] : List (ClientResp PayloadStatus)).length
          + 1 :=
  unbounded_polling.1 samplePayloadV1
    [Except.ok syncingStatus, Except.ok acceptedStatus,
      Except.ok invalidStatus] (by decide)

/-- Claim C8: the V1 and V2 wait operations contain no fatal-abort branch:
for every possible client response sequence their outcome is never the
fatal abort — they return a result, propagate a transport error, or keep
polling. -/
theorem v12_no_fatal :
    (∀ (payload : ExecutionPayloadV1) (rs : List (ClientResp PayloadStatus)),
        (new_payload_v1_wait payload rs).2.is_fatal = false) ∧
    (∀ (payload : ExecutionPayloadInputV2)
        (rs : List (ClientResp PayloadStatus)),
        (new_payload_v2_wait payload rs).2.is_fatal = false) ∧
    (∀ (st : ForkchoiceState) (attrs : Option PayloadAttributes)
        (rs : List (ClientResp ForkchoiceUpdated)),
        (fork_choice_updated_v1_wait st attrs rs).2.is_fatal = false) ∧
    (∀ (st : ForkchoiceState) (attrs : Option PayloadAttributes)
        (rs : List (ClientResp ForkchoiceUpdated)),
        (fork_choice_updated_v2_wait st attrs rs).2.is_fatal = false) :=
  ⟨new_payload_v1_wait_no_fatal, new_payload_v2_wait_no_fatal,
    fork_choice_updated_v1_wait_no_fatal,
    fork_choice_updated_v2_wait_no_fatal⟩

/-- Claim C9: every wait operation is deterministic with respect to its
environment: every run of an operation — a derivation of the run relation
for the same caller input and the same response/failure sequence — issues
exactly the request list and produces exactly the outcome computed by the
operation, so any two such runs coincide in requests, returned value,
propagated error, and fatal abort. -/
theorem wait_deterministic :
    (∀ (payload : ExecutionPayloadV1) (rs : List (ClientResp PayloadStatus))
        (out : List ExecutionPayloadV1 × WaitOutcome PayloadStatus),
        EngineWaitRel PayloadStatus.status noFatal payload rs out →
        out = new_payload_v1_wait payload rs) ∧
    (∀ (payload : ExecutionPayloadInputV2)
        (rs : List (ClientResp PayloadStatus))
        (out : List ExecutionPayloadInputV2 × WaitOutcome PayloadStatus),
        EngineWaitRel PayloadStatus.status noFatal payload rs out →
        out = new_payload_v2_wait payload rs) ∧
    (∀ (payload : ExecutionPayloadV3) (versioned_hashes : List B256)
        (parent_beacon_block_root : B256)
        (rs : List (ClientResp PayloadStatus))
        (out : List (ExecutionPayloadV3 × List B256 × B256) ×
          WaitOutcome PayloadStatus),
        EngineWaitRel PayloadStatus.status
          (npV3OnInvalid payload versioned_hashes parent_beacon_block_root)
          (payload, versioned_hashes, parent_beacon_block_root) rs out →
        out = new_payload_v3_wait payload versioned_hashes
          parent_beacon_block_root rs) ∧
    (∀ (st : ForkchoiceState) (attrs : Option PayloadAttributes)
        (rs : List (ClientResp ForkchoiceUpdated))
        (out : List (ForkchoiceState × Option PayloadAttributes) ×
          WaitOutcome ForkchoiceUpdated),
        EngineWaitRel fcuStatus noFatal (st, attrs) rs out →
        out = fork_choice_updated_v1_wait st attrs rs) ∧
    (∀ (st : ForkchoiceState) (attrs : Option PayloadAttributes)
        (rs : List (ClientResp ForkchoiceUpdated))
        (out : List (ForkchoiceState × Option PayloadAttributes) ×
          WaitOutcome ForkchoiceUpdated),
        EngineWaitRel fcuStatus noFatal (st, attrs) rs out →
        out = fork_choice_updated_v2_wait st attrs rs) ∧
    (∀ (st : ForkchoiceState) (attrs : Option PayloadAttributes)
        (rs : List (ClientResp ForkchoiceUpdated))
        (out : List (ForkchoiceState × Option PayloadAttributes) ×
          WaitOutcome ForkchoiceUpdated),
        EngineWaitRel fcuStatus (fcuV3OnInvalid st attrs) (st, attrs) rs out →
        out = fork_choice_updated_v3_wait st attrs rs) := by
  refine ⟨?_, ?_, ?_, ?_, ?_, ?_⟩
  · intro payload rs out h
    exact engineWaitRel_eq h (new_payload_v1_wait_rel payload rs)
  · intro payload rs out h
    exact engineWaitRel_eq h (new_payload_v2_wait_rel payload rs)
  · intro payload vh root rs out h
    exact engineWaitRel_eq h (new_payload_v3_wait_rel payload vh root rs)
  · intro st attrs rs out h
    exact engineWaitRel_eq h (fork_choice_updated_v1_wait_rel st attrs rs)
  · intro st attrs rs out h
    exact engineWaitRel_eq h (fork_choice_updated_v2_wait_rel st attrs rs)
  · intro st attrs rs out h
    exact engineWaitRel_eq h (fork_choice_updated_v3_wait_rel st attrs rs)

/-- Witness for claim C9: the one-step run of `new_payload_v1_wait` on the
single response `Valid` coincides with the function's result. -/
theorem wait_deterministic_witness :
    ([samplePayloadV1], WaitOutcome.ok validStatus) =
      new_payload_v1_wait samplePayloadV1 [Except.ok validStatus] :=
  wait_deterministic.1 samplePayloadV1 [Except.ok validStatus]
    ([samplePayloadV1], .ok validStatus)
    (EngineWaitRel.valid validStatus [] (by decide))

/-- Claim C10: `BASE_MAINNET` is fixed static data: its chain is Base
mainnet, its genesis hash is
`0xf712aa9241cc24369b143cf6dce85f0902a9731e70d66818a3a5845b296c73dd`,
Paris is set at block 0 with final difficulty 0, and its base-fee
parameters are the variable schedule mapping the London hardfork to the
Optimism parameters and the Canyon hardfork to the Optimism-Canyon
parameters. -/
theorem base_mainnet_static :
    BASE_MAINNET.inner.chain = Chain.base_mainnet ∧
      BASE_MAINNET.inner.genesis_hash =
        0xf712aa9241cc24369b143cf6dce85f0902a9731e70d66818a3a5845b296c73dd ∧
      BASE_MAINNET.inner.paris_block_and_final_difficulty = some (0, 0) ∧
      BASE_MAINNET.inner.base_fee_params =
        BaseFeeParamsKind.Variable
          [(Hardfork.ethereum EthereumHardfork.London,
              BaseFeeParams.optimism),
            (Hardfork.op OpHardfork.Canyon,
              BaseFeeParams.optimism_canyon)] :=
  ⟨rfl, rfl, rfl, rfl⟩
